import Mathlib

/-!
Verification of the OpenSky API client decoding core (Go package opensky).

The definitions below are a shallow embedding of the state-vector decoding
layer of the repository:
  - JValue models a Go interface value as produced by encoding/json
    decoding and by the test fixtures (nil, bool, float64, string,
    float64 slices, int slices, string slices, objects);
  - jsonNumberToInt and jsonNumberArrayToIntArray embed the two coercion
    helpers at the bottom of the source file;
  - parseState embeds the per-record decoder, field by field and in the
    same order as the source;
  - parseStatesResponse embeds the batch decoder with its Go named-return
    semantics (the returned response is whatever had been accumulated when
    an error aborts the loop);
  - GoTime and unixTimeUnmarshalJSON embed time.go, with Go time.Time
    values identified with the Unix-second count of the denoted instant.

Go float64 values are modelled by rationals; the only operation the code
performs on them is the int64 conversion, which truncates toward zero and
is modelled exactly by truncToInt.
-/

deriving instance DecidableEq for Except

namespace OpenSky

/-- Generic decoded JSON value, modelling the Go interface values that can
reach the decoder: nil, bool, float64, string, a float64 slice, an int
slice, a string slice, an int (untyped numeric literal in the tests) and
an opaque decoded object. -/
inductive JValue where
  | JNull : JValue
  | JBool (b : Bool) : JValue
  | JFloat (f : ℚ) : JValue
  | JInt (n : Int) : JValue
  | JStr (s : String) : JValue
  | JFloatArr (a : List ℚ) : JValue
  | JIntArr (a : List Int) : JValue
  | JStrArr (a : List String) : JValue
  | JObj : JValue
  deriving DecidableEq, Repr

/-- Go type assertion v.(string). -/
def goAssertString : JValue → Option String
  | .JStr s => some s
  | _ => none

/-- Go type assertion v.(float64). -/
def goAssertFloat : JValue → Option ℚ
  | .JFloat f => some f
  | _ => none

/-- Go type assertion v.(bool). -/
def goAssertBool : JValue → Option Bool
  | .JBool b => some b
  | _ => none

/-- Go type assertion v.([]float64). -/
def goAssertFloatArray : JValue → Option (List ℚ)
  | .JFloatArr a => some a
  | _ => none

/-- True exactly on values whose dynamic type is float64. -/
def isFloat : JValue → Bool
  | .JFloat _ => true
  | _ => false

/-- True exactly on values whose dynamic type is a float64 slice. -/
def isFloatArray : JValue → Bool
  | .JFloatArr _ => true
  | _ => false

/-- True exactly on values whose dynamic type is string. -/
def isString : JValue → Bool
  | .JStr _ => true
  | _ => false

/-- Go conversion int64(f) for a float64 value: truncation toward zero,
modelled on rationals by truncating division of numerator by denominator. -/
def truncToInt (q : ℚ) : Int :=
  q.num.tdiv q.den

/-- Errors raised by the decoding core. Each constructor corresponds to one
fmt.Errorf call site in the source and carries exactly the data that the
source interpolates into the message: the record index, the field name, the
offending value, or (for the wrapping sites using the w verb) the wrapped
error. -/
inductive GoError where
  | notNumber (v : JValue) : GoError
  | notNumberArray (v : JValue) : GoError
  | invalidShape (pos : Int) (got : Nat) (expected : Nat) : GoError
  | invalidField (name : String) (pos : Int) (v : JValue) : GoError
  | invalidFieldWrap (name : String) (pos : Int) (e : GoError) : GoError
  deriving DecidableEq, Repr

/-- Embedding of jsonNumberToInt: accepts exactly a float64 value and
converts it with int64 truncation; any other dynamic type is an error
carrying the offending value. -/
def jsonNumberToInt : JValue → Except GoError Int
  | .JFloat f => .ok (truncToInt f)
  | v => .error (.notNumber v)

/-- Embedding of jsonNumberArrayToIntArray: accepts exactly a float64
slice and converts each element with int truncation; any other dynamic
type (including an int slice) is an error carrying the offending value. -/
def jsonNumberArrayToIntArray : JValue → Except GoError (List Int)
  | .JFloatArr a => .ok (a.map truncToInt)
  | v => .error (.notNumberArray v)

/-- A Go time.Time, identified with the Unix-second count of the instant it
denotes. time.Unix(sec, 0) denotes the instant sec; the zero value
time.Time{} denotes January 1 of year 1 (UTC), which is 62135596800
seconds before the Unix epoch. -/
structure GoTime where
  unixSec : Int
  deriving DecidableEq, Repr

/-- time.Unix(sec, 0). -/
def timeUnix (sec : Int) : GoTime :=
  ⟨sec⟩

/-- The Go zero value time.Time{}: January 1, year 1, 00:00:00 UTC. -/
def goTimeZero : GoTime :=
  ⟨-62135596800⟩

/-- Embedding of newUnixTime from time.go. -/
def newUnixTime (sec : Int) : GoTime :=
  timeUnix sec

/-- Shape of the raw bytes handed to UnixTime.UnmarshalJSON by the JSON
decoder: the null literal, a signed decimal integer literal, a string
literal (quotes included, so never parseable by strconv.ParseInt), an
object literal, or an array literal. -/
inductive JLiteral where
  | nullLit : JLiteral
  | intLit (n : Int) : JLiteral
  | strLit (s : String) : JLiteral
  | objLit : JLiteral
  | arrLit : JLiteral
  deriving DecidableEq, Repr

/-- Embedding of UnixTime.UnmarshalJSON from time.go: the null literal
stores the zero time.Time; an integer literal stores time.Unix of the
parsed value; anything else makes strconv.ParseInt fail, returning an
error (modelled as none). -/
def unixTimeUnmarshalJSON : JLiteral → Option GoTime
  | .nullLit => some ⟨(-62135596800 : Int)⟩
  | .intLit n => some (timeUnix n)
  | _ => none

/-- Embedding of the State struct. Pointer-typed optional fields become
Option; the Go nil slice for sensors becomes the empty list; CallSign and
Squawk keep the Go string representation where absent means empty. The
PositionSource field keeps the open integer representation of the source
(type PositionSource int). -/
structure State where
  icao24 : String
  callSign : String
  originCountry : String
  timePosition : Option GoTime
  lastContact : GoTime
  longitude : Option ℚ
  latitude : Option ℚ
  geoAltitude : Option ℚ
  onGround : Bool
  velocity : Option ℚ
  heading : Option ℚ
  verticalRate : Option ℚ
  sensors : List Int
  barometricAltitude : Option ℚ
  squawk : String
  spi : Bool
  positionSource : Int
  deriving DecidableEq, Repr

/-- Go idiom for a required string field: x, ok := v.(string); a failed
assertion is an invalid-field error naming the field and the index. -/
def requireString (name : String) (i : Int) (v : JValue) : Except GoError String :=
  match goAssertString v with
  | some s => .ok s
  | none => .error (.invalidField name i v)

/-- Go idiom for callsign and squawk: the field defaults to the empty
string; when the value is non-nil it must assert to string, else an
invalid-field error. -/
def optionalValidatedString (name : String) (i : Int) (v : JValue) : Except GoError String :=
  match v with
  | .JNull => .ok ""
  | v => requireString name i v

/-- Go idiom for a required bool field. -/
def requireBool (name : String) (i : Int) (v : JValue) : Except GoError Bool :=
  match goAssertBool v with
  | some b => .ok b
  | none => .error (.invalidField name i v)

/-- Go idiom for last_contact and position_source: jsonNumberToInt with its
error wrapped into an invalid-field error naming the field and index. -/
def requireInt (name : String) (i : Int) (v : JValue) : Except GoError Int :=
  match jsonNumberToInt v with
  | .ok n => .ok n
  | .error e => .error (.invalidFieldWrap name i e)

/-- Go idiom for time_position: nil yields an absent timestamp; a non-nil
value must pass jsonNumberToInt, whose failure is wrapped into an
invalid-field error (not dropped). -/
def optionalValidatedTime (name : String) (i : Int) (v : JValue) : Except GoError (Option GoTime) :=
  match v with
  | .JNull => .ok none
  | v =>
    match jsonNumberToInt v with
    | .ok n => .ok (some (newUnixTime n))
    | .error e => .error (.invalidFieldWrap name i e)

/-- Go idiom for sensors: nil leaves the nil slice; a non-nil value must
pass jsonNumberArrayToIntArray, whose failure is wrapped into an
invalid-field error (not dropped). -/
def optionalValidatedIntArray (name : String) (i : Int) (v : JValue) : Except GoError (List Int) :=
  match v with
  | .JNull => .ok []
  | v =>
    match jsonNumberArrayToIntArray v with
    | .ok a => .ok a
    | .error e => .error (.invalidFieldWrap name i e)

/-- Go idiom for the permissive optional float fields: if raw, ok :=
v.(float64); ok then the pointer is set, otherwise the field is silently
left nil. -/
def permissiveFloat (v : JValue) : Option ℚ :=
  goAssertFloat v

/-- Embedding of parseState: rejects records of fewer than 17 elements with
a shape error, then walks the 17 positional fields in source order. The
final match arm is unreachable because the length guard has already fired
for every list of fewer than 17 elements. -/
def parseState (s : List JValue) (i : Int) : Except GoError State :=
  if s.length < 17 then
    .error (.invalidShape i s.length 17)
  else
    match s with
    | s0 :: s1 :: s2 :: s3 :: s4 :: s5 :: s6 :: s7 :: s8 :: s9 :: s10 :: s11 :: s12 :: s13 :: s14 :: s15 :: s16 :: _ => do
      let icao24 ← requireString "icao24" i s0
      let callsign ← optionalValidatedString "callsign" i s1
      let originCountry ← requireString "origin_country" i s2
      let timePosition ← optionalValidatedTime "time_position" i s3
      let lastContact ← requireInt "last_contact" i s4
      let lon := permissiveFloat s5
      let lat := permissiveFloat s6
      let baroAltitude := permissiveFloat s7
      let onGround ← requireBool "on_ground" i s8
      let velocity := permissiveFloat s9
      let trueTrack := permissiveFloat s10
      let verticalRate := permissiveFloat s11
      let sensors ← optionalValidatedIntArray "sensors" i s12
      let geoAltitude := permissiveFloat s13
      let squawk ← optionalValidatedString "squawk" i s14
      let spi ← requireBool "spi" i s15
      let positionSource ← requireInt "position_source" i s16
      pure { icao24 := icao24
             callSign := callsign
             originCountry := originCountry
             timePosition := timePosition
             lastContact := newUnixTime lastContact
             longitude := lon
             latitude := lat
             geoAltitude := geoAltitude
             onGround := onGround
             velocity := velocity
             heading := trueTrack
             verticalRate := verticalRate
             sensors := sensors
             barometricAltitude := baroAltitude
             squawk := squawk
             spi := spi
             positionSource := positionSource }
    | _ => .error (.invalidShape i s.length 17)

/-- Embedding of the unstructuredStateResponse envelope. -/
structure UnstructuredStateResponse where
  time : Int
  states : List (List JValue)
  deriving Repr

/-- Embedding of GetStatesResponse. -/
structure GetStatesResponse where
  time : GoTime
  states : List State
  deriving DecidableEq, Repr

/-- The range loop of parseStatesResponse: parses records at consecutive
indices, appending each parsed state to the accumulated response; on the
first error it stops and returns whatever has been accumulated so far,
together with the error, exactly as the Go named-return early return
does. -/
def parseStatesLoop : List (List JValue) → Int → List State → List State × Option GoError
  | [], _, acc => (acc, none)
  | s :: rest, i, acc =>
    match parseState s i with
    | .ok st => parseStatesLoop rest (i + 1) (acc ++ [st])
    | .error e => (acc, some e)

/-- Embedding of parseStatesResponse: the capture time is converted
unconditionally; the records are parsed in order by the loop. The second
component is the returned err value (none on full success). -/
def parseStatesResponse (raw : UnstructuredStateResponse) : GetStatesResponse × Option GoError :=
  let r := parseStatesLoop raw.states 0 []
  ({ time := timeUnix raw.time, states := r.1 }, r.2)

/-- Projection of the State field decoded from a given permissive-optional
position of the wire record (5 longitude, 6 latitude, 7 barometric
altitude, 9 velocity, 10 heading, 11 vertical rate, 13 geometric
altitude). -/
def permissiveField : Nat → State → Option ℚ
  | 5, st => st.longitude
  | 6, st => st.latitude
  | 7, st => st.barometricAltitude
  | 9, st => st.velocity
  | 10, st => st.heading
  | 11, st => st.verticalRate
  | 13, st => st.geoAltitude
  | _, _ => none

/-- A 17-element record with every optional field null, taken from the
test fixtures of the repository. -/
def demoRecord : List JValue :=
  [.JStr "a50c7c", .JNull, .JStr "United States", .JFloat 1624891429, .JFloat 1624891429,
   .JNull, .JNull, .JNull, .JBool false, .JNull, .JNull, .JNull, .JNull, .JNull, .JNull,
   .JBool false, .JFloat 0]

/-- The state decoded from demoRecord at index 0. -/
def demoState : State :=
  { icao24 := "a50c7c", callSign := "", originCountry := "United States",
    timePosition := some (timeUnix 1624891429), lastContact := timeUnix 1624891429,
    longitude := none, latitude := none, geoAltitude := none, onGround := false,
    velocity := none, heading := none, verticalRate := none, sensors := [],
    barometricAltitude := none, squawk := "", spi := false, positionSource := 0 }

/-- demoRecord with a wrongly typed spi field (index 15), one of the
failing fixtures of the repository tests. -/
def badSpiRecord : List JValue :=
  [.JStr "a50c7c", .JNull, .JStr "United States", .JFloat 1624891429, .JFloat 1624891429,
   .JNull, .JNull, .JNull, .JBool false, .JNull, .JNull, .JNull, .JNull, .JNull, .JNull,
   .JStr "invalid_spi", .JFloat 0]

/-! Helper lemmas shared by the claim proofs. -/

theorem bindE_ok {α β : Type} (a : α) (f : α → Except GoError β) :
    (Except.ok a : Except GoError α) >>= f = f a := rfl

theorem bindE_error {α β : Type} (e : GoError) (f : α → Except GoError β) :
    (Except.error e : Except GoError α) >>= f = (.error e : Except GoError β) := rfl

theorem truncToInt_toward_zero (q : ℚ) : truncToInt q = if 0 ≤ q then ⌊q⌋ else ⌈q⌉ := by
  unfold truncToInt
  rcases le_or_lt 0 q with h | h
  · rw [if_pos h, Rat.floor_def]
    exact Int.tdiv_eq_ediv (Rat.num_nonneg.mpr h) (by positivity)
  · rw [if_neg (not_le.mpr h)]
    have h2 : ⌈q⌉ = -⌊-q⌋ := by rw [Int.floor_neg, neg_neg]
    rw [h2, Rat.floor_def, Rat.num_neg_eq_neg_num, Rat.den_neg_eq_den]
    have h3 : q.num.tdiv q.den = -((-q.num).tdiv q.den) := by
      rw [Int.neg_tdiv, neg_neg]
    rw [h3]
    congr 1
    exact Int.tdiv_eq_ediv
      (by have hn : q.num < 0 := Rat.num_neg.mpr h; omega) (by positivity)

theorem permissiveFloat_eq_none {v : JValue} (hv : isFloat v = false) :
    permissiveFloat v = none := by
  cases v <;> simp_all [permissiveFloat, goAssertFloat, isFloat]

theorem jsonNumberToInt_eq_error {v : JValue} (hv : isFloat v = false) :
    jsonNumberToInt v = .error (.notNumber v) := by
  cases v <;> simp_all [jsonNumberToInt, isFloat]

theorem jsonNumberArrayToIntArray_eq_error {v : JValue} (hv : isFloatArray v = false) :
    jsonNumberArrayToIntArray v = .error (.notNumberArray v) := by
  cases v <;> simp_all [jsonNumberArrayToIntArray, isFloatArray]

theorem optionalValidatedTime_eq_error (name : String) (i : Int) {v : JValue}
    (hn : v ≠ .JNull) (hv : isFloat v = false) :
    optionalValidatedTime name i v = .error (.invalidFieldWrap name i (.notNumber v)) := by
  cases v <;> simp_all [optionalValidatedTime, jsonNumberToInt, isFloat]

theorem optionalValidatedIntArray_eq_error (name : String) (i : Int) {v : JValue}
    (hn : v ≠ .JNull) (hv : isFloatArray v = false) :
    optionalValidatedIntArray name i v = .error (.invalidFieldWrap name i (.notNumberArray v)) := by
  cases v <;> simp_all [optionalValidatedIntArray, jsonNumberArrayToIntArray, isFloatArray]

theorem optionalValidatedString_eq_error (name : String) (i : Int) {v : JValue}
    (hn : v ≠ .JNull) (hv : isString v = false) :
    optionalValidatedString name i v = .error (.invalidField name i v) := by
  cases v <;> simp_all [optionalValidatedString, requireString, goAssertString, isString]

theorem parseState_cons (s0 s1 s2 s3 s4 s5 s6 s7 s8 s9 s10 s11 s12 s13 s14 s15 s16 : JValue)
    (t : List JValue) (i : Int) :
    parseState (s0 :: s1 :: s2 :: s3 :: s4 :: s5 :: s6 :: s7 :: s8 :: s9 :: s10 :: s11 ::
      s12 :: s13 :: s14 :: s15 :: s16 :: t) i = (do
      let icao24 ← requireString "icao24" i s0
      let callsign ← optionalValidatedString "callsign" i s1
      let originCountry ← requireString "origin_country" i s2
      let timePosition ← optionalValidatedTime "time_position" i s3
      let lastContact ← requireInt "last_contact" i s4
      let onGround ← requireBool "on_ground" i s8
      let sensors ← optionalValidatedIntArray "sensors" i s12
      let squawk ← optionalValidatedString "squawk" i s14
      let spi ← requireBool "spi" i s15
      let positionSource ← requireInt "position_source" i s16
      pure { icao24 := icao24
             callSign := callsign
             originCountry := originCountry
             timePosition := timePosition
             lastContact := newUnixTime lastContact
             longitude := permissiveFloat s5
             latitude := permissiveFloat s6
             geoAltitude := permissiveFloat s13
             onGround := onGround
             velocity := permissiveFloat s9
             heading := permissiveFloat s10
             verticalRate := permissiveFloat s11
             sensors := sensors
             barometricAltitude := permissiveFloat s7
             squawk := squawk
             spi := spi
             positionSource := positionSource } : Except GoError State) := by
  rw [parseState]
  rw [if_neg (by simp)]

theorem parseState_cons_ok_iff
    (s0 s1 s2 s3 s4 s5 s6 s7 s8 s9 s10 s11 s12 s13 s14 s15 s16 : JValue)
    (t : List JValue) (i : Int) (st : State) :
    parseState (s0 :: s1 :: s2 :: s3 :: s4 :: s5 :: s6 :: s7 :: s8 :: s9 :: s10 :: s11 ::
      s12 :: s13 :: s14 :: s15 :: s16 :: t) i = .ok st ↔
    ∃ ic cs oc tp lc og se sq sp ps,
      requireString "icao24" i s0 = .ok ic ∧
      optionalValidatedString "callsign" i s1 = .ok cs ∧
      requireString "origin_country" i s2 = .ok oc ∧
      optionalValidatedTime "time_position" i s3 = .ok tp ∧
      requireInt "last_contact" i s4 = .ok lc ∧
      requireBool "on_ground" i s8 = .ok og ∧
      optionalValidatedIntArray "sensors" i s12 = .ok se ∧
      optionalValidatedString "squawk" i s14 = .ok sq ∧
      requireBool "spi" i s15 = .ok sp ∧
      requireInt "position_source" i s16 = .ok ps ∧
      st = { icao24 := ic
             callSign := cs
             originCountry := oc
             timePosition := tp
             lastContact := newUnixTime lc
             longitude := permissiveFloat s5
             latitude := permissiveFloat s6
             geoAltitude := permissiveFloat s13
             onGround := og
             velocity := permissiveFloat s9
             heading := permissiveFloat s10
             verticalRate := permissiveFloat s11
             sensors := se
             barometricAltitude := permissiveFloat s7
             squawk := sq
             spi := sp
             positionSource := ps } := by
  rw [parseState_cons]
  simp only [bind, Except.bind]
  constructor
  · intro h
    rcases h0 : requireString "icao24" i s0 with e | ic <;> rw [h0] at h
    · exact absurd h (by simp)
    rcases h1 : optionalValidatedString "callsign" i s1 with e | cs <;> rw [h1] at h
    · exact absurd h (by simp)
    rcases h2 : requireString "origin_country" i s2 with e | oc <;> rw [h2] at h
    · exact absurd h (by simp)
    rcases h3 : optionalValidatedTime "time_position" i s3 with e | tp <;> rw [h3] at h
    · exact absurd h (by simp)
    rcases h4 : requireInt "last_contact" i s4 with e | lc <;> rw [h4] at h
    · exact absurd h (by simp)
    rcases h8 : requireBool "on_ground" i s8 with e | og <;> rw [h8] at h
    · exact absurd h (by simp)
    rcases h12 : optionalValidatedIntArray "sensors" i s12 with e | se <;> rw [h12] at h
    · exact absurd h (by simp)
    rcases h14 : optionalValidatedString "squawk" i s14 with e | sq <;> rw [h14] at h
    · exact absurd h (by simp)
    rcases h15 : requireBool "spi" i s15 with e | sp <;> rw [h15] at h
    · exact absurd h (by simp)
    rcases h16 : requireInt "position_source" i s16 with e | ps <;> rw [h16] at h
    · exact absurd h (by simp)
    refine ⟨ic, cs, oc, tp, lc, og, se, sq, sp, ps,
      rfl, rfl, rfl, rfl, rfl, rfl, rfl, rfl, rfl, rfl, ?_⟩
    simpa [pure, Except.pure] using h.symm
  · rintro ⟨ic, cs, oc, tp, lc, og, se, sq, sp, ps,
      h0, h1, h2, h3, h4, h8, h12, h14, h15, h16, rfl⟩
    rw [h0, h1, h2, h3, h4, h8, h12, h14, h15, h16]
    rfl

/-- C5 counterexample: decoding the null literal yields the Go zero time,
which is a different value from the one obtained by decoding the integer
literal 0, so the two are distinguishable, contrary to the claim. -/
theorem unixTime_null_vs_zero_counterexample :
    unixTimeUnmarshalJSON .nullLit ≠ unixTimeUnmarshalJSON (.intLit 0) := by
  decide

/-- C5 (amended): decoding the null literal succeeds and yields the zero
value of time.Time (January 1, year 1), decoding an integer literal n
yields time.Unix of n, and decoding a present non-integer literal (string,
object or array) fails; the null result is NOT the same value as the
result of decoding the integer literal 0, which is the Unix epoch. -/
theorem unixTime_unmarshal_contract :
    unixTimeUnmarshalJSON .nullLit = some goTimeZero ∧
    (∀ n : Int, unixTimeUnmarshalJSON (.intLit n) = some (timeUnix n)) ∧
    (∀ s : String, unixTimeUnmarshalJSON (.strLit s) = none) ∧
    unixTimeUnmarshalJSON .objLit = none ∧
    unixTimeUnmarshalJSON .arrLit = none ∧
    goTimeZero ≠ timeUnix 0 :=
  ⟨rfl, fun _ => rfl, fun _ => rfl, rfl, rfl, by decide⟩

/-- C7: jsonNumberToInt succeeds exactly on float values, truncating toward
zero (floor for nonnegative values, ceiling for negative ones, hence 42.0
to 42, -1.0 to -1 and 2.99 to 2), and fails on every other dynamic type
with a type-mismatch error carrying the offending value. It is a pure
function, so it has no side effects. -/
theorem jsonNumberToInt_contract :
    (∀ f : ℚ, jsonNumberToInt (.JFloat f) = .ok (if 0 ≤ f then ⌊f⌋ else ⌈f⌉)) ∧
    (∀ v : JValue, isFloat v = false → jsonNumberToInt v = .error (.notNumber v)) ∧
    jsonNumberToInt (.JFloat 42) = .ok 42 ∧
    jsonNumberToInt (.JFloat (-1)) = .ok (-1) ∧
    jsonNumberToInt (.JFloat (2.99 : ℚ)) = .ok 2 := by
  refine ⟨fun f => ?_, fun v hv => jsonNumberToInt_eq_error hv, by decide, by decide, ?_⟩
  · rw [jsonNumberToInt, truncToInt_toward_zero]
  · rw [show (2.99 : ℚ) = mkRat 299 100 from by rw [Rat.mkRat_eq_div]; norm_num]
    decide

/-- C7 witness: the failure branch at the concrete value of the string
foo. -/
theorem jsonNumberToInt_contract_witness :
    jsonNumberToInt (.JStr "foo") = .error (.notNumber (.JStr "foo")) :=
  jsonNumberToInt_contract.2.1 (.JStr "foo") rfl

/-- C8: jsonNumberArrayToIntArray succeeds exactly on float-slice values,
truncating each element toward zero in order, and fails for every other
shape: a bare float, a string, a bool, a string slice, and a slice that is
already integer-typed at the generic-value level. -/
theorem jsonNumberArrayToIntArray_contract :
    (∀ a : List ℚ,
      jsonNumberArrayToIntArray (.JFloatArr a) =
        .ok (a.map fun f => if 0 ≤ f then ⌊f⌋ else ⌈f⌉)) ∧
    (∀ v : JValue, isFloatArray v = false →
      jsonNumberArrayToIntArray v = .error (.notNumberArray v)) ∧
    jsonNumberArrayToIntArray (.JFloatArr [42, 33, (12.95 : ℚ), (-2.3 : ℚ)]) =
      .ok [42, 33, 12, -2] ∧
    jsonNumberArrayToIntArray (.JFloat 1) = .error (.notNumberArray (.JFloat 1)) ∧
    jsonNumberArrayToIntArray (.JIntArr [42, 33]) =
      .error (.notNumberArray (.JIntArr [42, 33])) ∧
    jsonNumberArrayToIntArray (.JStrArr ["foo"]) =
      .error (.notNumberArray (.JStrArr ["foo"])) := by
  refine ⟨fun a => ?_, fun v hv => jsonNumberArrayToIntArray_eq_error hv, ?_,
    by decide, by decide, by decide⟩
  · rw [jsonNumberArrayToIntArray]
    congr 1
    exact List.map_congr_left fun f _ => truncToInt_toward_zero f
  · rw [show (12.95 : ℚ) = mkRat 1295 100 from by rw [Rat.mkRat_eq_div]; norm_num,
      show (-2.3 : ℚ) = mkRat (-23) 10 from by rw [Rat.mkRat_eq_div]; norm_num]
    decide

/-- C8 witness: the failure branch at the concrete value true. -/
theorem jsonNumberArrayToIntArray_contract_witness :
    jsonNumberArrayToIntArray (.JBool true) = .error (.notNumberArray (.JBool true)) :=
  jsonNumberArrayToIntArray_contract.2.1 (.JBool true) rfl

/-- C9: a record of fewer than 17 elements is rejected with a shape error
reporting the record index, the actual element count and the expected
count of 17, whatever the elements are; no field is inspected. -/
theorem parseState_short_input (s : List JValue) (i : Int) (h : s.length < 17) :
    parseState s i = .error (.invalidShape i s.length 17) := by
  rw [parseState.eq_def]
  rw [if_pos h]

/-- C9 witness: the empty record at index 0. -/
theorem parseState_short_input_witness :
    parseState [] 0 = .error (.invalidShape 0 0 17) :=
  parseState_short_input [] 0 (by decide)

/-- C10: a record of at least 17 elements is never rejected for its
length, and parseState returns exactly what it returns on the first 17
elements with the same index; consequently any two records agreeing on
their first 17 elements decode identically. -/
theorem parseState_ignores_extra_elements (s : List JValue) (i : Int) (h : 17 ≤ s.length) :
    parseState s i = parseState (s.take 17) i := by
  rcases s with _ | ⟨s0, s⟩
  · simp at h
  rcases s with _ | ⟨s1, s⟩
  · simp at h
  rcases s with _ | ⟨s2, s⟩
  · simp at h
  rcases s with _ | ⟨s3, s⟩
  · simp at h
  rcases s with _ | ⟨s4, s⟩
  · simp at h
  rcases s with _ | ⟨s5, s⟩
  · simp at h
  rcases s with _ | ⟨s6, s⟩
  · simp at h
  rcases s with _ | ⟨s7, s⟩
  · simp at h
  rcases s with _ | ⟨s8, s⟩
  · simp at h
  rcases s with _ | ⟨s9, s⟩
  · simp at h
  rcases s with _ | ⟨s10, s⟩
  · simp at h
  rcases s with _ | ⟨s11, s⟩
  · simp at h
  rcases s with _ | ⟨s12, s⟩
  · simp at h
  rcases s with _ | ⟨s13, s⟩
  · simp at h
  rcases s with _ | ⟨s14, s⟩
  · simp at h
  rcases s with _ | ⟨s15, s⟩
  · simp at h
  rcases s with _ | ⟨s16, s⟩
  · simp at h
  rw [show (s0 :: s1 :: s2 :: s3 :: s4 :: s5 :: s6 :: s7 :: s8 :: s9 :: s10 :: s11 ::
      s12 :: s13 :: s14 :: s15 :: s16 :: s).take 17 =
      s0 :: s1 :: s2 :: s3 :: s4 :: s5 :: s6 :: s7 :: s8 :: s9 :: s10 :: s11 ::
      s12 :: s13 :: s14 :: s15 :: s16 :: ([] : List JValue) from rfl]
  rw [parseState_cons, parseState_cons]

/-- C10 witness: an 18-element record decodes exactly like its first 17
elements. -/
theorem parseState_ignores_extra_elements_witness :
    parseState (demoRecord ++ [JValue.JObj]) 0 = parseState ((demoRecord ++ [JValue.JObj]).take 17) 0 :=
  parseState_ignores_extra_elements (demoRecord ++ [JValue.JObj]) 0 (by decide)

/-- C6: a 17-element record in which every required field is correctly
typed and every optional field holds a correctly typed non-null value
decodes successfully, and every field of the resulting State is the
corresponding input value: the strings verbatim, both timestamps as
time.Unix of the truncated second count, the six float fields wrapped as
present, the sensor list truncated elementwise, and the position source
as the truncated code. -/
theorem parseState_happy_path (ic cs oc sq : String) (tp lc lon lat baro vel hd vr geo ps : ℚ)
    (sens : List ℚ) (og sp : Bool) (i : Int) :
    parseState [.JStr ic, .JStr cs, .JStr oc, .JFloat tp, .JFloat lc, .JFloat lon,
      .JFloat lat, .JFloat baro, .JBool og, .JFloat vel, .JFloat hd, .JFloat vr,
      .JFloatArr sens, .JFloat geo, .JStr sq, .JBool sp, .JFloat ps] i =
    Except.ok { icao24 := ic, callSign := cs, originCountry := oc,
                timePosition := some (timeUnix (truncToInt tp)),
                lastContact := timeUnix (truncToInt lc),
                longitude := some lon, latitude := some lat, geoAltitude := some geo,
                onGround := og, velocity := some vel, heading := some hd,
                verticalRate := some vr, sensors := sens.map truncToInt,
                barometricAltitude := some baro, squawk := sq, spi := sp,
                positionSource := truncToInt ps } := by
  rw [parseState_cons]
  rfl

/-- C2: overwriting any one of the permissive-optional positions (5
longitude, 6 latitude, 7 barometric altitude, 9 velocity, 10 heading, 11
vertical rate, 13 geometric altitude) of a 17-element record with a
non-null value that is not a float leaves the decode result exactly equal
to the result for the same record with that position null; in particular,
whenever the decode succeeds, the corresponding State field is absent and
every other field is as if the value had been null. -/
theorem permissiveOptional_drop
    (s0 s1 s2 s3 s4 s5 s6 s7 s8 s9 s10 s11 s12 s13 s14 s15 s16 : JValue)
    (t : List JValue) (i : Int) (k : Nat) (v : JValue)
    (hk : k ∈ ([5, 6, 7, 9, 10, 11, 13] : List Nat))
    (hv : isFloat v = false) (hvn : v ≠ JValue.JNull) :
    parseState ((s0 :: s1 :: s2 :: s3 :: s4 :: s5 :: s6 :: s7 :: s8 :: s9 :: s10 :: s11 ::
        s12 :: s13 :: s14 :: s15 :: s16 :: t).set k v) i =
      parseState ((s0 :: s1 :: s2 :: s3 :: s4 :: s5 :: s6 :: s7 :: s8 :: s9 :: s10 :: s11 ::
        s12 :: s13 :: s14 :: s15 :: s16 :: t).set k JValue.JNull) i ∧
    ∀ st, parseState ((s0 :: s1 :: s2 :: s3 :: s4 :: s5 :: s6 :: s7 :: s8 :: s9 :: s10 :: s11 ::
        s12 :: s13 :: s14 :: s15 :: s16 :: t).set k v) i = Except.ok st →
      permissiveField k st = none := by
  have hnone : permissiveFloat v = none := permissiveFloat_eq_none hv
  have hnull : permissiveFloat JValue.JNull = none := rfl
  fin_cases hk <;>
    exact ⟨by simp only [List.set]; rw [parseState_cons, parseState_cons, hnone, hnull],
           by intro st h
              simp only [List.set] at h
              rw [parseState_cons_ok_iff] at h
              obtain ⟨ic, cs, oc, tp, lc, og, se, sq, sp, ps,
                h0, h1, h2, h3, h4, h8, h12, h14, h15, h16, hst⟩ := h
              subst hst
              simp [permissiveField, hnone]⟩

/-- C2 witness: a wrongly typed longitude (position 5) decodes exactly as
a null longitude on an otherwise valid record. -/
theorem permissiveOptional_drop_witness :
    parseState (([JValue.JStr "a50c7c", JValue.JNull, JValue.JStr "United States",
        JValue.JFloat 1624891429, JValue.JFloat 1624891429, JValue.JNull, JValue.JNull,
        JValue.JNull, JValue.JBool false, JValue.JNull, JValue.JNull, JValue.JNull,
        JValue.JNull, JValue.JNull, JValue.JNull, JValue.JBool false,
        JValue.JFloat 0]).set 5 (JValue.JStr "invalid_long")) 0 =
    parseState (([JValue.JStr "a50c7c", JValue.JNull, JValue.JStr "United States",
        JValue.JFloat 1624891429, JValue.JFloat 1624891429, JValue.JNull, JValue.JNull,
        JValue.JNull, JValue.JBool false, JValue.JNull, JValue.JNull, JValue.JNull,
        JValue.JNull, JValue.JNull, JValue.JNull, JValue.JBool false,
        JValue.JFloat 0]).set 5 JValue.JNull) 0 :=
  (permissiveOptional_drop _ _ _ _ _ _ _ _ _ _ _ _ _ _ _ _ _ [] 0 5
    (JValue.JStr "invalid_long") (by decide) rfl (by decide)).1

/-- C3: on a 17-element record that otherwise decodes successfully, each
validated-optional field behaves as follows: put to null, the decode still
succeeds with that field absent (time position none, sensors the nil
slice, squawk empty) and all other fields unchanged; put to a non-null
value of the wrong type, the decode fails with the error naming that field
and the record index. -/
theorem validatedOptional_policy
    (s0 s1 s2 s3 s4 s5 s6 s7 s8 s9 s10 s11 s12 s13 s14 s15 s16 : JValue)
    (t : List JValue) (i : Int) (st : State)
    (h : parseState (s0 :: s1 :: s2 :: s3 :: s4 :: s5 :: s6 :: s7 :: s8 :: s9 :: s10 :: s11 ::
      s12 :: s13 :: s14 :: s15 :: s16 :: t) i = Except.ok st) :
    (parseState ((s0 :: s1 :: s2 :: s3 :: s4 :: s5 :: s6 :: s7 :: s8 :: s9 :: s10 :: s11 ::
        s12 :: s13 :: s14 :: s15 :: s16 :: t).set 3 JValue.JNull) i =
      Except.ok { st with timePosition := none }) ∧
    (∀ v : JValue, v ≠ JValue.JNull → isFloat v = false →
      parseState ((s0 :: s1 :: s2 :: s3 :: s4 :: s5 :: s6 :: s7 :: s8 :: s9 :: s10 :: s11 ::
        s12 :: s13 :: s14 :: s15 :: s16 :: t).set 3 v) i =
      Except.error (.invalidFieldWrap "time_position" i (.notNumber v))) ∧
    (parseState ((s0 :: s1 :: s2 :: s3 :: s4 :: s5 :: s6 :: s7 :: s8 :: s9 :: s10 :: s11 ::
        s12 :: s13 :: s14 :: s15 :: s16 :: t).set 12 JValue.JNull) i =
      Except.ok { st with sensors := [] }) ∧
    (∀ v : JValue, v ≠ JValue.JNull → isFloatArray v = false →
      parseState ((s0 :: s1 :: s2 :: s3 :: s4 :: s5 :: s6 :: s7 :: s8 :: s9 :: s10 :: s11 ::
        s12 :: s13 :: s14 :: s15 :: s16 :: t).set 12 v) i =
      Except.error (.invalidFieldWrap "sensors" i (.notNumberArray v))) ∧
    (parseState ((s0 :: s1 :: s2 :: s3 :: s4 :: s5 :: s6 :: s7 :: s8 :: s9 :: s10 :: s11 ::
        s12 :: s13 :: s14 :: s15 :: s16 :: t).set 14 JValue.JNull) i =
      Except.ok { st with squawk := "" }) ∧
    (∀ v : JValue, v ≠ JValue.JNull → isString v = false →
      parseState ((s0 :: s1 :: s2 :: s3 :: s4 :: s5 :: s6 :: s7 :: s8 :: s9 :: s10 :: s11 ::
        s12 :: s13 :: s14 :: s15 :: s16 :: t).set 14 v) i =
      Except.error (.invalidField "squawk" i v)) := by
  rw [parseState_cons_ok_iff] at h
  obtain ⟨ic, cs, oc, tp, lc, og, se, sq, sp, ps,
    h0, h1, h2, h3, h4, h8, h12, h14, h15, h16, hst⟩ := h
  subst hst
  refine ⟨?_, ?_, ?_, ?_, ?_, ?_⟩
  · simp only [List.set]
    rw [parseState_cons_ok_iff]
    exact ⟨ic, cs, oc, none, lc, og, se, sq, sp, ps,
      h0, h1, h2, rfl, h4, h8, h12, h14, h15, h16, rfl⟩
  · intro v hvn hv
    simp only [List.set]
    simp only [parseState_cons, h0, h1, h2, bindE_ok,
      optionalValidatedTime_eq_error "time_position" i hvn hv, bindE_error]
  · simp only [List.set]
    rw [parseState_cons_ok_iff]
    exact ⟨ic, cs, oc, tp, lc, og, [], sq, sp, ps,
      h0, h1, h2, h3, h4, h8, rfl, h14, h15, h16, rfl⟩
  · intro v hvn hv
    simp only [List.set]
    simp only [parseState_cons, h0, h1, h2, h3, h4, h8, bindE_ok,
      optionalValidatedIntArray_eq_error "sensors" i hvn hv, bindE_error]
  · simp only [List.set]
    rw [parseState_cons_ok_iff]
    exact ⟨ic, cs, oc, tp, lc, og, se, "", sp, ps,
      h0, h1, h2, h3, h4, h8, h12, rfl, h15, h16, rfl⟩
  · intro v hvn hv
    simp only [List.set]
    simp only [parseState_cons, h0, h1, h2, h3, h4, h8, h12, bindE_ok,
      optionalValidatedString_eq_error "squawk" i hvn hv, bindE_error]

/-- C3 witness: a wrongly typed time position (position 3) on an otherwise
valid record fails with the error naming time_position and index 0. -/
theorem validatedOptional_policy_witness :
    parseState (([JValue.JStr "a50c7c", JValue.JNull, JValue.JStr "United States",
        JValue.JFloat 1624891429, JValue.JFloat 1624891429, JValue.JNull, JValue.JNull,
        JValue.JNull, JValue.JBool false, JValue.JNull, JValue.JNull, JValue.JNull,
        JValue.JNull, JValue.JNull, JValue.JNull, JValue.JBool false,
        JValue.JFloat 0]).set 3 (JValue.JStr "invalid_time")) 0 =
    Except.error (.invalidFieldWrap "time_position" 0 (.notNumber (JValue.JStr "invalid_time"))) :=
  (validatedOptional_policy _ _ _ _ _ _ _ _ _ _ _ _ _ _ _ _ _ [] 0 demoState
    (by decide)).2.1 (JValue.JStr "invalid_time") (by decide) rfl

/-- C4 counterexample: a record whose position-source field holds the
integer code 7, outside the four enumeration codes, is NOT rejected:
parseState succeeds and stores 7. -/
theorem positionSource_out_of_range_counterexample :
    parseState (demoRecord.set 16 (JValue.JFloat 7)) 0 =
      Except.ok { demoState with positionSource := 7 } := by
  decide

/-- C4 (amended): on a 17-element record that otherwise decodes
successfully, replacing the position-source field by any float code makes
parseState succeed with the truncated code stored as the position source;
no range validation against the four enumeration codes is performed. -/
theorem positionSource_any_code
    (s0 s1 s2 s3 s4 s5 s6 s7 s8 s9 s10 s11 s12 s13 s14 s15 s16 : JValue)
    (t : List JValue) (i : Int) (st : State) (q : ℚ)
    (h : parseState (s0 :: s1 :: s2 :: s3 :: s4 :: s5 :: s6 :: s7 :: s8 :: s9 :: s10 :: s11 ::
      s12 :: s13 :: s14 :: s15 :: s16 :: t) i = Except.ok st) :
    parseState ((s0 :: s1 :: s2 :: s3 :: s4 :: s5 :: s6 :: s7 :: s8 :: s9 :: s10 :: s11 ::
      s12 :: s13 :: s14 :: s15 :: s16 :: t).set 16 (JValue.JFloat q)) i =
    Except.ok { st with positionSource := truncToInt q } := by
  rw [parseState_cons_ok_iff] at h
  obtain ⟨ic, cs, oc, tp, lc, og, se, sq, sp, ps,
    h0, h1, h2, h3, h4, h8, h12, h14, h15, h16, hst⟩ := h
  subst hst
  simp only [List.set]
  rw [parseState_cons_ok_iff]
  exact ⟨ic, cs, oc, tp, lc, og, se, sq, sp, truncToInt q,
    h0, h1, h2, h3, h4, h8, h12, h14, h15, rfl, rfl⟩

/-- C4 witness: the out-of-range code 7 on the demo record. -/
theorem positionSource_any_code_witness :
    parseState (([JValue.JStr "a50c7c", JValue.JNull, JValue.JStr "United States",
        JValue.JFloat 1624891429, JValue.JFloat 1624891429, JValue.JNull, JValue.JNull,
        JValue.JNull, JValue.JBool false, JValue.JNull, JValue.JNull, JValue.JNull,
        JValue.JNull, JValue.JNull, JValue.JNull, JValue.JBool false,
        JValue.JFloat 0]).set 16 (JValue.JFloat 7)) 0 =
    Except.ok { demoState with positionSource := truncToInt 7 } :=
  positionSource_any_code _ _ _ _ _ _ _ _ _ _ _ _ _ _ _ _ _ [] 0 demoState 7 (by decide)

/-- C1 counterexample: in a batch whose record 0 is valid and whose record
1 has a wrongly typed spi field, parseStatesResponse returns the error of
record 1 (referencing index 1) but the returned response DOES carry the
state decoded from record 0, contrary to the claim that no states are
returned alongside the error. -/
theorem batch_partial_states_counterexample :
    (parseStatesResponse ⟨1624958210, [demoRecord, badSpiRecord]⟩).2 =
      some (.invalidField "spi" 1 (JValue.JStr "invalid_spi")) ∧
    (parseStatesResponse ⟨1624958210, [demoRecord, badSpiRecord]⟩).1.states = [demoState] := by
  decide

/-- Auxiliary induction for the batch decoder loop: if the records before
position k all parse and the record at position k fails with error e, the
loop returns e together with the k states parsed before the failure,
appended to the accumulator. -/
theorem parseStatesLoop_first_failure :
    ∀ (recs : List (List JValue)) (k : Nat) (i0 : Int) (acc : List State) (e : GoError),
      k < recs.length →
      (∀ j : Nat, j < k → ∃ st, parseState (recs.getD j []) (i0 + j) = Except.ok st) →
      parseState (recs.getD k []) (i0 + k) = Except.error e →
      (parseStatesLoop recs i0 acc).2 = some e ∧
      (parseStatesLoop recs i0 acc).1.length = acc.length + k := by
  intro recs
  induction recs with
  | nil =>
    intro k i0 acc e hk _ _
    simp at hk
  | cons r rest ih =>
    intro k i0 acc e hk hok herr
    cases k with
    | zero =>
      have herr0 : parseState r i0 = Except.error e := by simpa using herr
      rw [parseStatesLoop, herr0]
      simp
    | succ k2 =>
      obtain ⟨st, hst⟩ := hok 0 (Nat.succ_pos k2)
      have hst0 : parseState r i0 = Except.ok st := by simpa using hst
      rw [parseStatesLoop, hst0]
      have hk2 : k2 < rest.length := by simp at hk; omega
      have hok2 : ∀ j : Nat, j < k2 →
          ∃ st2, parseState (rest.getD j []) (i0 + 1 + j) = Except.ok st2 := by
        intro j hj
        obtain ⟨st2, hst2⟩ := hok (j + 1) (by omega)
        refine ⟨st2, ?_⟩
        have hget : (r :: rest).getD (j + 1) [] = rest.getD j [] := by simp
        rw [hget] at hst2
        rw [show ((j + 1 : Nat) : Int) = (j : Int) + 1 from by push_cast; ring] at hst2
        rw [show i0 + ((j : Int) + 1) = i0 + 1 + j from by ring] at hst2
        exact hst2
      have herr2 : parseState (rest.getD k2 []) (i0 + 1 + k2) = Except.error e := by
        have hget : (r :: rest).getD (k2 + 1) [] = rest.getD k2 [] := by simp
        rw [hget] at herr
        rw [show ((k2 + 1 : Nat) : Int) = (k2 : Int) + 1 from by push_cast; ring] at herr
        rw [show i0 + ((k2 : Int) + 1) = i0 + 1 + k2 from by ring] at herr
        exact herr
      have ihres := ih k2 (i0 + 1) (acc ++ [st]) e hk2 hok2 herr2
      refine ⟨ihres.1, ?_⟩
      rw [ihres.2]
      simp
      omega

/-- C1 (amended): when the records before position k all parse and the
record at position k fails with error e, parseStatesResponse returns e —
the error of the first failing record, which references that index —
and, alongside it, exactly the k states decoded from the records preceding
the failure (a partial prefix, not the empty sequence). -/
theorem parseStatesResponse_first_failure (tm : Int) (recs : List (List JValue))
    (k : Nat) (e : GoError)
    (hk : k < recs.length)
    (hok : ∀ j : Nat, j < k → ∃ st, parseState (recs.getD j []) j = Except.ok st)
    (herr : parseState (recs.getD k []) k = Except.error e) :
    (parseStatesResponse ⟨tm, recs⟩).2 = some e ∧
    (parseStatesResponse ⟨tm, recs⟩).1.states.length = k := by
  have h := parseStatesLoop_first_failure recs k 0 [] e hk
    (by intro j hj; simpa using hok j hj)
    (by simpa using herr)
  exact ⟨h.1, by simpa using h.2⟩

/-- C1 witness: the two-record batch from the counterexample, with the
first failure at index 1. -/
theorem parseStatesResponse_first_failure_witness :
    (parseStatesResponse ⟨0, [demoRecord, badSpiRecord]⟩).2 =
      some (.invalidField "spi" 1 (JValue.JStr "invalid_spi")) ∧
    (parseStatesResponse ⟨0, [demoRecord, badSpiRecord]⟩).1.states.length = 1 :=
  parseStatesResponse_first_failure 0 [demoRecord, badSpiRecord] 1
    (.invalidField "spi" 1 (JValue.JStr "invalid_spi"))
    (by decide)
    (by intro j hj
        have hj0 : j = 0 := by omega
        subst hj0
        exact ⟨demoState, by decide⟩)
    (by decide)

end OpenSky
